import Mathlib

/-!
Verification of the answer-resolution pipeline of `task_bot2.py`
(ai-powered-faq-discord-bot).

The embedding models question/answer text as `List Char` (Python `str`),
the Gemini global configuration (`genai.configure`) as an explicit state
value threaded through the resolver, and each upstream model call as an
oracle parameter `Upstream` giving the outcome of
`ai_model.generate_content` for a handle (primary/backup) and a question.
-/

set_option maxRecDepth 100000

namespace TaskBot

/-- Python `str` as a list of characters. -/
abbrev Text := List Char

/-- Python `str.strip()`: drop leading and trailing whitespace. -/
def pyStrip (s : Text) : Text :=
  (((s.dropWhile Char.isWhitespace).reverse).dropWhile Char.isWhitespace).reverse

/-- Python `str.lower()`: character-wise lower-casing. -/
def pyLower (s : Text) : Text :=
  s.map Char.toLower

/-- Boolean test that `n` is an initial segment of the second list
(Python slice equality at position 0). -/
def startsWith : Text → Text → Bool
  | [], _ => true
  | _ :: _, [] => false
  | a :: as, b :: bs => a == b && startsWith as bs

/-- Python substring containment `needle in hay`. -/
def containsSub (needle : Text) : Text → Bool
  | [] => needle.isEmpty
  | c :: rest => startsWith needle (c :: rest) || containsSub needle rest

/-- Outcome of one `ai_model.generate_content` call as observed through
`asyncio.wait_for`: wall-clock timeout (`asyncio.TimeoutError`), any other
raised exception, a falsy response or one without a `text` attribute, or a
response carrying text. -/
inductive GenResult where
  | timeout
  | failure
  | noText
  | ok (text : Text)

/-- The two model handles the resolver can query (`model`, `backup_model`). -/
inductive ModelHandle where
  | primary
  | backup
deriving DecidableEq

/-- Upstream behaviour: outcome of `generate_content` per handle and question. -/
abbrev Upstream := ModelHandle → Text → GenResult

/-- Which stage produced the final answer (spec data model `Candidate.source`). -/
inductive Source where
  | PRIMARY_MODEL
  | BACKUP_MODEL
  | KEYWORD_RULE
  | STATIC_FALLBACK
deriving DecidableEq

/-- Spec data model `FinalAnswer`: the answer text plus the stage that produced it. -/
structure FinalAnswer where
  text : Text
  source : Source
deriving DecidableEq

/-- Process-global Gemini SDK configuration mutated by `genai.configure`. -/
structure GenaiState where
  genai_api_key : Option Text
deriving DecidableEq

/-- Configuration visible to the resolver: truthiness of the module-level
`model` and `backup_model` handles and the `GEMINI_BACKUP_API_KEY` value. -/
structure Env where
  model : Bool
  backup_model : Bool
  gemini_backup_api_key : Option Text

/-- Python truthiness of an optional string (`None` and `""` are falsy). -/
def optKeyTruthy : Option Text → Bool
  | none => false
  | some s => !s.isEmpty

/-- `query_ai_model` (task_bot2.py lines 599-616): on a successful response
with a `text` attribute, strip it and return it only when its length exceeds
10; every timeout, exception or textless response yields `None`. -/
def query_ai_model (r : GenResult) : Option Text :=
  match r with
  | .timeout => none
  | .failure => none
  | .noText => none
  | .ok t =>
    let answer := pyStrip t
    if 10 < answer.length then some answer else none

/-- The acceptance check applied by `get_ai_response_with_fallbacks` to a
model answer (lines 537 and 547): `answer and len(answer.strip()) > 10`. -/
def accept (answer : Text) : Bool :=
  !answer.isEmpty && decide (10 < (pyStrip answer).length)

/-- Canned verification answer (line 624). -/
def verification_text : Text :=
  "To get verified:\n1. Go to <#1382588462372356286>\n2. Post your Reddit profile URL\n3. You need ≥50 karma and an unsuspended account\n4. Wait for mod approval with ✅ reaction".data

/-- Canned payment answer (line 627). -/
def payment_text : Text :=
  "Payments are made every Monday (IST) via UPI (India) or USDT (BEP20 only). Submit your records to <@703280080213901342> on Saturday/Sunday.".data

/-- Canned task answer (line 630). -/
def task_text : Text :=
  "Tasks include: Post tasks ($0.30-$0.50, 1/day), Comment tasks ($0.20, 3/day), Voting/Reports ($0.05-$0.10, no limit). Check <#1382657321641181236> for available tasks.".data

/-- Canned rules answer (line 633). -/
def rules_text : Text :=
  "Please check <#1382588462372356286> for complete server rules, or ask specific questions in <#1379815484056277044>.".data

/-- `fallback_responses[0]` (line 527), the static last-resort message. -/
def fallback_response_0 : Text :=
  "I don\x27t have specific information about that in our server rules. Please ask in <#1379815484056277044> or DM <@703280080213901342> for help.".data

/-- The designated moderator mention appearing in the static fallback. -/
def moderator_mention : Text :=
  "<@703280080213901342>".data

/-- `get_rule_based_answer` (lines 618-635): lower-case the question and test
the four keyword categories in order, returning the first matching canned
answer, else `None`. -/
def get_rule_based_answer (question : Text) : Option Text :=
  let question_lower := pyLower question
  if containsSub "verify".data question_lower || containsSub "verification".data question_lower
      || containsSub "how to join".data question_lower then
    some verification_text
  else if containsSub "payment".data question_lower || containsSub "payout".data question_lower
      || containsSub "money".data question_lower then
    some payment_text
  else if containsSub "task".data question_lower || containsSub "tasks".data question_lower
      || containsSub "work".data question_lower then
    some task_text
  else if containsSub "rules".data question_lower || containsSub "guidelines".data question_lower then
    some rules_text
  else
    none

/-- The keyword stage followed by the static fallback (lines 552-561):
`if answer:` keeps a truthy rule-based answer, else `fallback_responses[0]`. -/
def rule_stage (question : Text) : FinalAnswer :=
  match get_rule_based_answer question with
  | some answer =>
    if answer.isEmpty then ⟨fallback_response_0, .STATIC_FALLBACK⟩
    else ⟨answer, .KEYWORD_RULE⟩
  | none => ⟨fallback_response_0, .STATIC_FALLBACK⟩

/-- The backup-model stage (lines 542-550): when `backup_model` and
`GEMINI_BACKUP_API_KEY` are truthy, first `genai.configure` overwrites the
process-global API key, then the backup model is queried; on any failure or
rejection fall through to the keyword/static stage. -/
def backup_stage (env : Env) (up : Upstream) (question : Text) (st : GenaiState) :
    FinalAnswer × GenaiState :=
  if env.backup_model && optKeyTruthy env.gemini_backup_api_key then
    match query_ai_model (up .backup question) with
    | some answer =>
      if accept answer then (⟨answer, .BACKUP_MODEL⟩, ⟨env.gemini_backup_api_key⟩)
      else (rule_stage question, ⟨env.gemini_backup_api_key⟩)
    | none => (rule_stage question, ⟨env.gemini_backup_api_key⟩)
  else
    (rule_stage question, st)

/-- `get_ai_response_with_fallbacks` (lines 524-561): try the primary model,
then the backup model, then the keyword rules, then the static fallback. -/
def get_ai_response_with_fallbacks (env : Env) (up : Upstream) (question : Text)
    (st : GenaiState) : FinalAnswer × GenaiState :=
  if env.model then
    match query_ai_model (up .primary question) with
    | some answer =>
      if accept answer then (⟨answer, .PRIMARY_MODEL⟩, st)
      else backup_stage env up question st
    | none => backup_stage env up question st
  else
    backup_stage env up question st

/-- The fixed validation error message of `ask_question` (line 506). -/
def validation_error_text : Text :=
  "❌ Please provide a valid question with at least 3 characters.".data

/-- Observable outcome of the `ask_question` command handler. -/
inductive HandlerOutcome where
  | validation_error (msg : Text)
  | answered (ans : FinalAnswer)
deriving DecidableEq

/-- `ask_question` (lines 497-515): reject empty or too-short questions with
a fixed error message before invoking the resolver. -/
def ask_question (env : Env) (up : Upstream) (question : Text) (st : GenaiState) :
    HandlerOutcome × GenaiState :=
  if question.isEmpty || decide ((pyStrip question).length < 3) then
    (.validation_error validation_error_text, st)
  else
    let r := get_ai_response_with_fallbacks env up question st
    (.answered r.1, r.2)

/-- All four bad primary-stage outcomes of the spec taxonomy: not configured,
timeout/transport failure/textless response (query yields `None`), or a
quality-rejected answer. -/
def primary_advances (env : Env) (up : Upstream) (question : Text) : Prop :=
  env.model = false ∨ query_ai_model (up .primary question) = none ∨
    ∃ a, query_ai_model (up .primary question) = some a ∧ accept a = false

/-- All bad backup-stage outcomes: stage not configured, query yields `None`,
or a quality-rejected answer. -/
def backup_advances (env : Env) (up : Upstream) (question : Text) : Prop :=
  (env.backup_model && optKeyTruthy env.gemini_backup_api_key) = false ∨
    query_ai_model (up .backup question) = none ∨
    ∃ a, query_ai_model (up .backup question) = some a ∧ accept a = false

/-! ## Helper lemmas -/

/-- The resolver acceptance check is exactly the length test on the stripped
text: the truthiness conjunct `answer and ...` is redundant, since an empty
answer strips to the empty list. -/
lemma accept_eq (t : Text) : accept t = decide (10 < (pyStrip t).length) := by
  cases t <;> rfl

lemma accept_true_ne_nil {t : Text} (h : accept t = true) : t ≠ [] := by
  intro hnil
  subst hnil
  simp [accept] at h

lemma fallback0_ne_nil : fallback_response_0 ≠ [] := by decide

lemma rule_stage_text_ne_nil (q : Text) : (rule_stage q).text ≠ [] := by
  unfold rule_stage
  split
  · split
    · exact fallback0_ne_nil
    · rename_i a heq h
      intro hnil
      exact h (by simp [show a = [] from hnil])
  · exact fallback0_ne_nil

lemma backup_stage_text_ne_nil (env : Env) (up : Upstream) (q : Text) (st : GenaiState) :
    (backup_stage env up q st).1.text ≠ [] := by
  unfold backup_stage
  split
  · split
    · split
      · rename_i ha
        exact accept_true_ne_nil ha
      · exact rule_stage_text_ne_nil q
    · exact rule_stage_text_ne_nil q
  · exact rule_stage_text_ne_nil q

lemma fallbacks_text_ne_nil (env : Env) (up : Upstream) (q : Text) (st : GenaiState) :
    (get_ai_response_with_fallbacks env up q st).1.text ≠ [] := by
  unfold get_ai_response_with_fallbacks
  split
  · split
    · split
      · rename_i ha
        exact accept_true_ne_nil ha
      · exact backup_stage_text_ne_nil env up q st
    · exact backup_stage_text_ne_nil env up q st
  · exact backup_stage_text_ne_nil env up q st

/-- The answer component of the backup stage does not depend on the incoming
global Gemini configuration. -/
lemma backup_stage_fst_state_irrel (env : Env) (up : Upstream) (q : Text)
    (st st' : GenaiState) :
    (backup_stage env up q st).1 = (backup_stage env up q st').1 := by
  unfold backup_stage
  split <;> rfl

/-- The answer component of the resolver does not depend on the incoming
global Gemini configuration. -/
lemma fallbacks_fst_state_irrel (env : Env) (up : Upstream) (q : Text)
    (st st' : GenaiState) :
    (get_ai_response_with_fallbacks env up q st).1
      = (get_ai_response_with_fallbacks env up q st').1 := by
  unfold get_ai_response_with_fallbacks
  split
  · split
    · split
      · rfl
      · exact backup_stage_fst_state_irrel env up q st st'
    · exact backup_stage_fst_state_irrel env up q st st'
  · exact backup_stage_fst_state_irrel env up q st st'

/-- A failed/rejected/unconfigured primary stage falls through to the backup
stage verbatim. -/
lemma primary_advance {env : Env} {up : Upstream} {q : Text}
    (h : primary_advances env up q) (st : GenaiState) :
    get_ai_response_with_fallbacks env up q st = backup_stage env up q st := by
  unfold get_ai_response_with_fallbacks
  rcases h with h | h | ⟨a, ha, hacc⟩
  · simp [h]
  · cases hm : env.model
    · simp
    · simp [h]
  · cases hm : env.model
    · simp
    · simp [ha, hacc]

/-- A failed/rejected/unconfigured backup stage falls through to the
keyword/static stage. -/
lemma backup_advance {env : Env} {up : Upstream} {q : Text}
    (h : backup_advances env up q) (st : GenaiState) :
    (backup_stage env up q st).1 = rule_stage q := by
  unfold backup_stage
  rcases h with h | h | ⟨a, ha, hacc⟩
  · simp [h]
  · cases hc : env.backup_model && optKeyTruthy env.gemini_backup_api_key
    · simp
    · simp [h]
  · cases hc : env.backup_model && optKeyTruthy env.gemini_backup_api_key
    · simp
    · simp [ha, hacc]

lemma dropWhile_replicate_of_not (p : Char → Bool) (a : Char) (h : p a = false) :
    ∀ n, List.dropWhile p (List.replicate n a) = List.replicate n a
  | 0 => rfl
  | n + 1 => by
    rw [List.replicate_succ, List.dropWhile_cons, h]
    simp

lemma pyStrip_replicate (a : Char) (h : a.isWhitespace = false) (n : Nat) :
    pyStrip (List.replicate n a) = List.replicate n a := by
  unfold pyStrip
  rw [dropWhile_replicate_of_not _ _ h, List.reverse_replicate,
    dropWhile_replicate_of_not _ _ h, List.reverse_replicate]

lemma accept_replicate_a (n : Nat) (hn : 10 < n) :
    accept (List.replicate n 'a') = true := by
  rw [accept_eq, pyStrip_replicate 'a' (by decide), List.length_replicate]
  simpa using hn

lemma query_ok_replicate_a (n : Nat) (hn : 10 < n) :
    query_ai_model (.ok (List.replicate n 'a')) = some (List.replicate n 'a') := by
  show (if 10 < (pyStrip (List.replicate n 'a')).length
      then some (pyStrip (List.replicate n 'a')) else none) = some (List.replicate n 'a')
  rw [pyStrip_replicate 'a' (by decide), List.length_replicate, if_pos hn]

/-- A question whose lower-cased text contains `"verify"` hits the first
keyword category regardless of the other keywords. -/
lemma rule_verify {q : Text} (h : containsSub "verify".data (pyLower q) = true) :
    get_rule_based_answer q = some verification_text := by
  unfold get_rule_based_answer
  simp [h]

/-- A question whose lower-cased text contains `"work"` and no
verification- or payment-category keyword hits the task category. -/
lemma rule_work {q : Text}
    (hw : containsSub "work".data (pyLower q) = true)
    (h1 : containsSub "verify".data (pyLower q) = false)
    (h2 : containsSub "verification".data (pyLower q) = false)
    (h3 : containsSub "how to join".data (pyLower q) = false)
    (h4 : containsSub "payment".data (pyLower q) = false)
    (h5 : containsSub "payout".data (pyLower q) = false)
    (h6 : containsSub "money".data (pyLower q) = false) :
    get_rule_based_answer q = some task_text := by
  unfold get_rule_based_answer
  simp [hw, h1, h2, h3, h4, h5, h6]

lemma fallbacks_text_isEmpty_false (env : Env) (up : Upstream) (q : Text) (st : GenaiState) :
    (get_ai_response_with_fallbacks env up q st).1.text.isEmpty = false := by
  have h := fallbacks_text_ne_nil env up q st
  cases ht : (get_ai_response_with_fallbacks env up q st).1.text with
  | nil => exact absurd ht h
  | cons c l => rfl

/-- An accepted primary candidate short-circuits the pipeline: the resolver
returns it tagged `PRIMARY_MODEL`, leaving the global state untouched. -/
lemma primary_accept {env : Env} {up : Upstream} {q : Text} {a : Text}
    (hm : env.model = true)
    (hq : query_ai_model (up .primary q) = some a)
    (ha : accept a = true) (st : GenaiState) :
    get_ai_response_with_fallbacks env up q st = (⟨a, .PRIMARY_MODEL⟩, st) := by
  unfold get_ai_response_with_fallbacks
  simp [hm, hq, ha]

/-- An accepted backup candidate terminates the backup stage: it is returned
tagged `BACKUP_MODEL`, with the global state overwritten by the
`genai.configure` call. -/
lemma backup_accept {env : Env} {up : Upstream} {q : Text} {b : Text}
    (hc : (env.backup_model && optKeyTruthy env.gemini_backup_api_key) = true)
    (hq : query_ai_model (up .backup q) = some b)
    (hb : accept b = true) (st : GenaiState) :
    backup_stage env up q st = (⟨b, .BACKUP_MODEL⟩, ⟨env.gemini_backup_api_key⟩) := by
  unfold backup_stage
  simp [hc, hq, hb]

/-- A primary model answering with `n` repeated characters (`n > 10`) has its
answer passed through unmodified, whatever `n` is. -/
lemma resolve_replicate_answer (n : Nat) (hn : 10 < n) :
    get_ai_response_with_fallbacks ⟨true, false, none⟩
        (fun _ _ => .ok (List.replicate n 'a')) ("when is payday".data) ⟨none⟩
      = (⟨List.replicate n 'a', .PRIMARY_MODEL⟩, (⟨none⟩ : GenaiState)) :=
  primary_accept rfl (query_ok_replicate_a n hn) (accept_replicate_a n hn) ⟨none⟩

/-- On a question whose lower-cased text contains `"verify"`, the keyword
stage returns the verification canned text tagged as a keyword answer. -/
lemma rule_stage_of_verify {q : Text}
    (hv : containsSub "verify".data (pyLower q) = true) :
    rule_stage q = ⟨verification_text, .KEYWORD_RULE⟩ := by
  unfold rule_stage
  rw [rule_verify hv]
  decide

/-- When no keyword category matches, the keyword stage returns the static
fallback text. -/
lemma rule_stage_of_none {q : Text} (hn : get_rule_based_answer q = none) :
    rule_stage q = ⟨fallback_response_0, .STATIC_FALLBACK⟩ := by
  unfold rule_stage
  rw [hn]

/-! ## Claims -/

/-- Claim C1, amended: the Quality Gate of `task_bot2.py` performs no
generic-hedge-phrase or marker-phrase test at all; it accepts exactly the
candidates whose stripped text is longer than 10 characters, so both example
inputs — with and without the phrase "server rules" — are accepted. -/
theorem claim_C1 :
    accept ("it depends on the situation".data) = true ∧
    accept ("it depends, per the server rules, on karma".data) = true ∧
    ∀ t : Text, accept t = decide (10 < (pyStrip t).length) :=
  ⟨by decide, by decide, accept_eq⟩

/-- Claim C1 counterexample: the claim states that
`accept "it depends on the situation"` is `false` (hedge phrase present,
marker phrase absent); the code accepts it, since its only check is
`len(answer.strip()) > 10`. -/
theorem claim_C1_counterexample :
    accept ("it depends on the situation".data) = true := by decide

/-- Claim C6, amended: the Quality Gate rejects a candidate exactly when its
stripped text has length at most 10 (the minimum accepted stripped length is
11): a 10-character candidate is rejected, `accept "ok"` is `false`, and
`accept ""` is `false`. -/
theorem claim_C6 :
    (∀ t : Text, accept t = true ↔ 10 < (pyStrip t).length) ∧
    accept ("abcdefghij".data) = false ∧
    accept ("ok".data) = false ∧
    accept ([] : Text) = false :=
  ⟨fun t => by rw [accept_eq]; exact decide_eq_true_iff, by decide, by decide, by decide⟩

/-- Claim C6 counterexample: the claim says rejection happens exactly when
the text is empty or shorter than 10 characters, so the 10-character
candidate `"abcdefghij"` should be accepted; the code's check
`len(answer.strip()) > 10` rejects it. -/
theorem claim_C6_counterexample :
    accept ("abcdefghij".data) = false ∧
    ("abcdefghij".data : Text).isEmpty = false ∧
    ("abcdefghij".data : Text).length = 10 := by
  refine ⟨by decide, by decide, by decide⟩

/-- Claim C2, amended: the resolver is total and always yields exactly one
FinalAnswer with non-empty text; the canned keyword and static-fallback texts
are fixed strings under the 2000-character single-message bound, but an
accepted model answer is passed through with no maximum-length enforcement
(only the 10-character minimum is checked). -/
theorem claim_C2 :
    (∀ (env : Env) (up : Upstream) (q : Text) (st : GenaiState),
      (get_ai_response_with_fallbacks env up q st).1.text.isEmpty = false) ∧
    verification_text.length ≤ 2000 ∧ payment_text.length ≤ 2000 ∧
    task_text.length ≤ 2000 ∧ rules_text.length ≤ 2000 ∧
    fallback_response_0.length ≤ 2000 :=
  ⟨fallbacks_text_isEmpty_false, by decide, by decide, by decide, by decide, by decide⟩

/-- Claim C2 counterexample: the claim says every FinalAnswer is under the
fixed single-message maximum length; but the resolver returns an accepted
model answer unmodified, so a primary-model response of 4097 repeated
characters yields a FinalAnswer of length 4097, exceeding both the
2000-character message bound and the 4096-character embed-description bound. -/
theorem claim_C2_counterexample :
    (get_ai_response_with_fallbacks ⟨true, false, none⟩
        (fun _ _ => .ok (List.replicate 4097 'a')) ("when is payday".data) ⟨none⟩).1
      = ⟨List.replicate 4097 'a', .PRIMARY_MODEL⟩ ∧
    2000 < (List.replicate 4097 'a').length ∧
    4096 < (List.replicate 4097 'a').length := by
  refine ⟨?_, by rw [List.length_replicate]; norm_num, by rw [List.length_replicate]; norm_num⟩
  exact congrArg Prod.fst (resolve_replicate_answer 4097 (by norm_num))

/-- Claim C3 (code bug): resolving a question does mutate process-global
state: on the backup path the code executes
`genai.configure(api_key=GEMINI_BACKUP_API_KEY)` (line 545), overwriting the
process-global Gemini configuration that concurrent in-flight resolutions
read. At the failing input below (primary model raising, backup configured),
the global API key changes from "primary-key" to "backup-key" during the
resolve call, contradicting the claim that no global endpoint configuration
is modified. -/
theorem claim_C3 :
    (get_ai_response_with_fallbacks ⟨true, true, some ("backup-key".data)⟩
        (fun _ _ => .failure) ("hello there".data) ⟨some ("primary-key".data)⟩).2
      = ⟨some ("backup-key".data)⟩ ∧
    decide ((get_ai_response_with_fallbacks ⟨true, true, some ("backup-key".data)⟩
        (fun _ _ => .failure) ("hello there".data) ⟨some ("primary-key".data)⟩).2
      = (⟨some ("primary-key".data)⟩ : GenaiState)) = false := by
  refine ⟨by decide, by decide⟩

/-- Claim C8: resolving is deterministic and stateless across calls: running
the resolver a second time on the same question, same configuration and same
upstream oracle, starting from the global state left behind by the first
call, produces exactly the same FinalAnswer (text and source). -/
theorem claim_C8 :
    ∀ (env : Env) (up : Upstream) (q : Text) (st : GenaiState),
      (get_ai_response_with_fallbacks env up q
          ((get_ai_response_with_fallbacks env up q st).2)).1
        = (get_ai_response_with_fallbacks env up q st).1 :=
  fun env up q st => fallbacks_fst_state_irrel env up q _ st

/-- Concrete environment used by witnesses: both models configured, backup
key `"key2"`. -/
def envW : Env := ⟨true, true, some ("key2".data)⟩

/-- Witness upstream: primary answers with a long accepted text, backup raises. -/
def upW1 : Upstream := fun h _ =>
  match h with
  | .primary => .ok ("This answer cites the server rules fully.".data)
  | .backup => .failure

/-- Witness upstream: primary raises, backup answers with a long accepted text. -/
def upW2 : Upstream := fun h _ =>
  match h with
  | .primary => .failure
  | .backup => .ok ("Backup answer citing the server rules.".data)

/-- Witness upstream: every model call times out. -/
def upTimeout : Upstream := fun _ _ => .timeout

/-- Claim C4: the resolver's stages run strictly forward with no retries or
loops. If the primary model returns an accepted candidate, the FinalAnswer is
that candidate with source `PRIMARY_MODEL`, the global state is untouched,
and the result is independent of the backup oracle (so the backup, keyword
and static stages are not invoked); if the primary stage fails in any way and
the backup returns an accepted candidate, the source is `BACKUP_MODEL`. -/
theorem claim_C4 :
    ∀ (env : Env) (up up' : Upstream) (q : Text) (st : GenaiState) (a b : Text),
      (env.model = true →
        query_ai_model (up .primary q) = some a →
        accept a = true →
        get_ai_response_with_fallbacks env up q st = (⟨a, .PRIMARY_MODEL⟩, st) ∧
        (up' .primary = up .primary →
          get_ai_response_with_fallbacks env up' q st
            = get_ai_response_with_fallbacks env up q st)) ∧
      (primary_advances env up q →
        (env.backup_model && optKeyTruthy env.gemini_backup_api_key) = true →
        query_ai_model (up .backup q) = some b →
        accept b = true →
        (get_ai_response_with_fallbacks env up q st).1 = ⟨b, .BACKUP_MODEL⟩) := by
  intro env up up' q st a b
  constructor
  · intro hm hq ha
    refine ⟨primary_accept hm hq ha st, ?_⟩
    intro hp'
    have hq' : query_ai_model (up' .primary q) = some a := by rw [hp']; exact hq
    rw [primary_accept hm hq' ha st, primary_accept hm hq ha st]
  · intro hp hc hqb hb
    rw [primary_advance hp st, backup_accept hc hqb hb st]

/-- Claim C4 witness: concrete runs of both scenarios — an accepted primary
answer comes back tagged `PRIMARY_MODEL`; a failing primary with an accepted
backup answer comes back tagged `BACKUP_MODEL`. -/
theorem claim_C4_witness :
    get_ai_response_with_fallbacks envW upW1 ("what are the rules".data) ⟨none⟩
      = (⟨"This answer cites the server rules fully.".data, .PRIMARY_MODEL⟩,
          (⟨none⟩ : GenaiState)) ∧
    (get_ai_response_with_fallbacks envW upW2 ("what are the rules".data) ⟨none⟩).1
      = ⟨"Backup answer citing the server rules.".data, .BACKUP_MODEL⟩ := by
  constructor
  · exact ((claim_C4 envW upW1 upW1 ("what are the rules".data) ⟨none⟩
      ("This answer cites the server rules fully.".data)
      ("Backup answer citing the server rules.".data)).1
      rfl (by decide) (by decide)).1
  · exact (claim_C4 envW upW2 upW2 ("what are the rules".data) ⟨none⟩
      ("This answer cites the server rules fully.".data)
      ("Backup answer citing the server rules.".data)).2
      (Or.inr (Or.inl rfl)) (by decide) (by decide) (by decide)

/-- Claim C5: when both model stages fail, a question whose lower-cased text
contains `"verify"` receives the verification canned text with source
`KEYWORD_RULE` — even if it also matches a task keyword, since the
verification category is evaluated first — and a question matching no
category receives the static fallback text (which contains the designated
moderator mention) with source `STATIC_FALLBACK`. -/
theorem claim_C5 :
    ∀ (env : Env) (up : Upstream) (q : Text) (st : GenaiState),
      primary_advances env up q →
      backup_advances env up q →
      (containsSub "verify".data (pyLower q) = true →
        (get_ai_response_with_fallbacks env up q st).1
          = ⟨verification_text, .KEYWORD_RULE⟩) ∧
      (get_rule_based_answer q = none →
        (get_ai_response_with_fallbacks env up q st).1
          = ⟨fallback_response_0, .STATIC_FALLBACK⟩) ∧
      containsSub moderator_mention fallback_response_0 = true := by
  intro env up q st hp hb
  have hr : (get_ai_response_with_fallbacks env up q st).1 = rule_stage q := by
    rw [primary_advance hp st]
    exact backup_advance hb st
  refine ⟨?_, ?_, by decide⟩
  · intro hv
    rw [hr, rule_stage_of_verify hv]
  · intro hn
    rw [hr, rule_stage_of_none hn]

/-- Claim C5 witness: with both models timing out, a question containing
`"verify"` (and also the task keyword `"tasks"`) gets the verification canned
text, and a question matching no keyword gets the static fallback. -/
theorem claim_C5_witness :
    (get_ai_response_with_fallbacks envW upTimeout ("how do i verify my tasks".data) ⟨none⟩).1
      = ⟨verification_text, .KEYWORD_RULE⟩ ∧
    (get_ai_response_with_fallbacks envW upTimeout ("good evening".data) ⟨none⟩).1
      = ⟨fallback_response_0, .STATIC_FALLBACK⟩ := by
  constructor
  · exact (claim_C5 envW upTimeout ("how do i verify my tasks".data) ⟨none⟩
      (Or.inr (Or.inl rfl)) (Or.inr (Or.inl rfl))).1 (by decide)
  · exact (claim_C5 envW upTimeout ("good evening".data) ⟨none⟩
      (Or.inr (Or.inl rfl)) (Or.inr (Or.inl rfl))).2.1 (by decide)

/-- Claim C7: every bad model-stage outcome of the error taxonomy — timeout
and transport failure (the query returns `None`), a quality-rejected answer,
and a missing credential — advances the pipeline to the next stage, and none
of them surfaces as an error: the resolver is total and its FinalAnswer text
is always non-empty. -/
theorem claim_C7 :
    ∀ (env : Env) (up : Upstream) (q : Text) (st : GenaiState),
      query_ai_model .timeout = none ∧
      query_ai_model .failure = none ∧
      (primary_advances env up q →
        get_ai_response_with_fallbacks env up q st = backup_stage env up q st) ∧
      (backup_advances env up q → (backup_stage env up q st).1 = rule_stage q) ∧
      (get_ai_response_with_fallbacks env up q st).1.text.isEmpty = false :=
  fun env up q st =>
    ⟨rfl, rfl, fun hp => primary_advance hp st, fun hb => backup_advance hb st,
      fallbacks_text_isEmpty_false env up q st⟩

/-- Claim C7 witness: a concrete run where every model call times out: the
primary stage advances to the backup stage, the backup stage advances to the
keyword stage, and the final text is non-empty. -/
theorem claim_C7_witness :
    get_ai_response_with_fallbacks envW upTimeout ("good evening".data) ⟨none⟩
      = backup_stage envW upTimeout ("good evening".data) ⟨none⟩ ∧
    (backup_stage envW upTimeout ("good evening".data) ⟨none⟩).1
      = rule_stage ("good evening".data) := by
  have h := claim_C7 envW upTimeout ("good evening".data) ⟨none⟩
  exact ⟨h.2.2.1 (Or.inr (Or.inl rfl)), h.2.2.2.1 (Or.inr (Or.inl rfl))⟩

/-- Claim C9: keyword matching is substring containment on the lower-cased
question, not whole-word membership: any question containing `"work"` inside
a larger word (and no earlier-category keyword) triggers the task category,
as on `"my network is broken"` and `"i need help with my homework"`, where
`"work"` never occurs as a standalone word. -/
theorem claim_C9 :
    (∀ q : Text,
      containsSub "work".data (pyLower q) = true →
      containsSub "verify".data (pyLower q) = false →
      containsSub "verification".data (pyLower q) = false →
      containsSub "how to join".data (pyLower q) = false →
      containsSub "payment".data (pyLower q) = false →
      containsSub "payout".data (pyLower q) = false →
      containsSub "money".data (pyLower q) = false →
      get_rule_based_answer q = some task_text) ∧
    get_rule_based_answer ("my network is broken".data) = some task_text ∧
    get_rule_based_answer ("i need help with my homework".data) = some task_text :=
  ⟨fun _ hw h1 h2 h3 h4 h5 h6 => rule_work hw h1 h2 h3 h4 h5 h6,
    by decide, by decide⟩

/-- Claim C9 witness: the universal part applied to `"my coworker is stuck"`,
whose lower-cased text contains `"work"` only inside `"coworker"`. -/
theorem claim_C9_witness :
    get_rule_based_answer ("my coworker is stuck".data) = some task_text :=
  claim_C9.1 ("my coworker is stuck".data) (by decide) (by decide) (by decide)
    (by decide) (by decide) (by decide) (by decide)

/-- Claim C10: the `ask_question` handler validates input before resolution:
an empty question, or one whose stripped length is below 3, yields the fixed
validation error message, with the global state untouched and the result
independent of the environment and the upstream oracle (no resolver stage is
invoked). -/
theorem claim_C10 :
    ∀ (env : Env) (up : Upstream) (q : Text) (st : GenaiState),
      q.isEmpty = true ∨ (pyStrip q).length < 3 →
      ask_question env up q st = (.validation_error validation_error_text, st) := by
  intro env up q st h
  have hc : (q.isEmpty || decide ((pyStrip q).length < 3)) = true := by
    rcases h with h | h
    · simp [h]
    · simp [h]
  unfold ask_question
  rw [if_pos hc]

/-- Claim C10 witness: the two-character question `"hi"` is rejected with the
fixed validation error even though the configured primary model would have
answered. -/
theorem claim_C10_witness :
    ask_question envW upW1 ("hi".data) ⟨none⟩
      = (.validation_error validation_error_text, (⟨none⟩ : GenaiState)) :=
  claim_C10 envW upW1 ("hi".data) ⟨none⟩ (Or.inr (by decide))

end TaskBot
